import Mathlib

/-!
Verification development for the automail backend services.

This file gives a shallow embedding, in Lean 4, of the pure decision logic of
the backend services (`email_finance.py`, `email_orchestrator.py`,
`email_analytics.py`, `email_reminders.py`, `auto_reply_draft.py`) and proves
properties of that logic.

Modelling conventions:
* Python dicts of JSON data are association lists `List (String × JVal)` in
  insertion order; `dictSet` mirrors Python item assignment (replace in place
  or append), `upsert` mirrors the "initialise key if absent, then mutate"
  pattern used for the currency groups.
* External effects (the language-model calls, the Gmail API calls, the JSON
  parser, the database connection and `datetime.now()`) are supplied as
  explicit arguments: a call that can raise is an `Except String` value, the
  parser outcome is an `Option JVal` (`none` = `json.loads` raised), the
  clock is a `now : String` argument and the database is a list of rows that
  a save function returns alongside its boolean result.
* Python machine strings are Lean `String`s, but the string operations the
  code uses (`strip`, `lower`, substring membership, the `YYYY-MM-DD` regex)
  are re-implemented structurally over `List Char` so that they evaluate
  inside the kernel.  Amounts (`float(...)`) are modelled as `ℚ`: every
  property proved here is about grouping, selection and exact algebraic
  identities that the code states as such (`net = income - expense`), not
  about rounding.
-/

/-! ## String primitives (Python `str.strip`, `str.lower`, `in`, regex) -/

/-- Characters stripped by Python's `str.strip()` (the ASCII whitespace). -/
def isPyWS (c : Char) : Bool :=
  c == ' ' || c == '\t' || c == '\n' || c == '\r' || c == '\x0b' || c == '\x0c'

/-- Python `s.strip()`. -/
def trimStr (s : String) : String :=
  String.mk (((s.data.dropWhile isPyWS).reverse.dropWhile isPyWS).reverse)

/-- ASCII lower-casing of one character (Python `str.lower` on the ASCII
inputs the services compare against). -/
def lowerChar (c : Char) : Char :=
  if 'A' ≤ c && c ≤ 'Z' then Char.ofNat (c.toNat + 32) else c

/-- Python `s.lower()` (ASCII fragment). -/
def lowerStr (s : String) : String :=
  String.mk (s.data.map lowerChar)

/-- Holds when `needle` is a prefix of `hay` (character lists). -/
def listStartsWith (needle : List Char) : List Char → Bool
  | [] => needle.isEmpty
  | b :: bs =>
    match needle with
    | [] => true
    | a :: as => a == b && listStartsWith as bs

/-- Holds when `needle` occurs as a contiguous sublist of `hay`. -/
def listHasSub (needle : List Char) : List Char → Bool
  | [] => needle.isEmpty
  | c :: t => listStartsWith needle (c :: t) || listHasSub needle t

/-- Python `sub in hay` for strings. -/
def hasSub (hay sub : String) : Bool :=
  listHasSub sub.data hay.data

/-- Python's `\d` on `str` patterns: any Unicode decimal digit (general
category Nd; ranges of the Unicode 14.0 character database). -/
def isPyDigit (c : Char) : Bool :=
  let n := c.toNat;
    (0x30 ≤ n && n ≤ 0x39) || (0x660 ≤ n && n ≤ 0x669) || (0x6f0 ≤ n && n ≤ 0x6f9) ||
    (0x7c0 ≤ n && n ≤ 0x7c9) || (0x966 ≤ n && n ≤ 0x96f) || (0x9e6 ≤ n && n ≤ 0x9ef) ||
    (0xa66 ≤ n && n ≤ 0xa6f) || (0xae6 ≤ n && n ≤ 0xaef) || (0xb66 ≤ n && n ≤ 0xb6f) ||
    (0xbe6 ≤ n && n ≤ 0xbef) || (0xc66 ≤ n && n ≤ 0xc6f) || (0xce6 ≤ n && n ≤ 0xcef) ||
    (0xd66 ≤ n && n ≤ 0xd6f) || (0xde6 ≤ n && n ≤ 0xdef) || (0xe50 ≤ n && n ≤ 0xe59) ||
    (0xed0 ≤ n && n ≤ 0xed9) || (0xf20 ≤ n && n ≤ 0xf29) || (0x1040 ≤ n && n ≤ 0x1049) ||
    (0x1090 ≤ n && n ≤ 0x1099) || (0x17e0 ≤ n && n ≤ 0x17e9) || (0x1810 ≤ n && n ≤ 0x1819) ||
    (0x1946 ≤ n && n ≤ 0x194f) || (0x19d0 ≤ n && n ≤ 0x19d9) || (0x1a80 ≤ n && n ≤ 0x1a89) ||
    (0x1a90 ≤ n && n ≤ 0x1a99) || (0x1b50 ≤ n && n ≤ 0x1b59) || (0x1bb0 ≤ n && n ≤ 0x1bb9) ||
    (0x1c40 ≤ n && n ≤ 0x1c49) || (0x1c50 ≤ n && n ≤ 0x1c59) || (0xa620 ≤ n && n ≤ 0xa629) ||
    (0xa8d0 ≤ n && n ≤ 0xa8d9) || (0xa900 ≤ n && n ≤ 0xa909) || (0xa9d0 ≤ n && n ≤ 0xa9d9) ||
    (0xa9f0 ≤ n && n ≤ 0xa9f9) || (0xaa50 ≤ n && n ≤ 0xaa59) || (0xabf0 ≤ n && n ≤ 0xabf9) ||
    (0xff10 ≤ n && n ≤ 0xff19) || (0x104a0 ≤ n && n ≤ 0x104a9) || (0x10d30 ≤ n && n ≤ 0x10d39) ||
    (0x11066 ≤ n && n ≤ 0x1106f) || (0x110f0 ≤ n && n ≤ 0x110f9) || (0x11136 ≤ n && n ≤ 0x1113f) ||
    (0x111d0 ≤ n && n ≤ 0x111d9) || (0x112f0 ≤ n && n ≤ 0x112f9) || (0x11450 ≤ n && n ≤ 0x11459) ||
    (0x114d0 ≤ n && n ≤ 0x114d9) || (0x11650 ≤ n && n ≤ 0x11659) || (0x116c0 ≤ n && n ≤ 0x116c9) ||
    (0x11730 ≤ n && n ≤ 0x11739) || (0x118e0 ≤ n && n ≤ 0x118e9) || (0x11950 ≤ n && n ≤ 0x11959) ||
    (0x11c50 ≤ n && n ≤ 0x11c59) || (0x11d50 ≤ n && n ≤ 0x11d59) || (0x11da0 ≤ n && n ≤ 0x11da9) ||
    (0x16a60 ≤ n && n ≤ 0x16a69) || (0x16ac0 ≤ n && n ≤ 0x16ac9) || (0x16b50 ≤ n && n ≤ 0x16b59) ||
    (0x1d7ce ≤ n && n ≤ 0x1d7ff) || (0x1e140 ≤ n && n ≤ 0x1e149) || (0x1e2f0 ≤ n && n ≤ 0x1e2f9) ||
    (0x1e950 ≤ n && n ≤ 0x1e959) || (0x1fbf0 ≤ n && n ≤ 0x1fbf9)

/-- Ten characters of the shape `\d{4}-\d{2}-\d{2}`. -/
def dateShape : List Char → Bool
  | [y1, y2, y3, y4, h1, m1, m2, h2, d1, d2] =>
    isPyDigit y1 && isPyDigit y2 && isPyDigit y3 && isPyDigit y4 &&
    h1 == '-' && isPyDigit m1 && isPyDigit m2 &&
    h2 == '-' && isPyDigit d1 && isPyDigit d2
  | _ => false

/-- Python `re.match(r'^\d{4}-\d{2}-\d{2}$', s) is not None`, the date and
deadline check of `email_finance.py` line 390 and `email_reminders.py` line
243: `\d` matches any Unicode decimal digit, and `$` matches at the end of
the string or just before a single newline ending the string, so one
trailing `'\n'` is also accepted. -/
def matchesDateRe (s : String) : Bool :=
  match s.data with
  | [y1, y2, y3, y4, h1, m1, m2, h2, d1, d2] =>
    dateShape [y1, y2, y3, y4, h1, m1, m2, h2, d1, d2]
  | [y1, y2, y3, y4, h1, m1, m2, h2, d1, d2, nl] =>
    nl == '\n' && dateShape [y1, y2, y3, y4, h1, m1, m2, h2, d1, d2]
  | _ => false

/-! ## JSON values -/

/-- JSON values as returned by `json.loads`. -/
inductive JVal where
  | null
  | bool (b : Bool)
  | num (n : Int)
  | str (s : String)
  | arr (xs : List JVal)
  | obj (fields : List (String × JVal))

/-- Python `"s" in xs` for a list of JSON values: string equality against the
string elements, `False` against everything else. -/
def containsStr (xs : List JVal) (s : String) : Bool :=
  xs.any fun v => match v with | .str t => t = s | _ => false

/-- Is this value a JSON array of strings? -/
def isStringList (v : JVal) : Bool :=
  match v with
  | .arr xs => xs.all fun x => match x with | .str _ => true | _ => false
  | _ => false

/-- Python `d[k] = v` on a dict modelled as an insertion-ordered association
list: overwrite in place if the key exists, otherwise append. -/
def dictSet (fields : List (String × JVal)) (k : String) (v : JVal) :
    List (String × JVal) :=
  match fields with
  | [] => [(k, v)]
  | (k', v') :: rest =>
    if k' = k then (k', v) :: rest else (k', v') :: dictSet rest k v

/-- Python `d.get(k, default)`. -/
def dictGet (d : List (String × JVal)) (k : String) (dflt : JVal) : JVal :=
  match d.find? (fun p => p.1 = k) with
  | some p => p.2
  | none => dflt

/-! ## Generic association-list upsert (the `if key not in d: d[key] = init`
then mutate-in-place pattern of `calculate_financial_summary`) -/

/-- Apply `f` to the value stored at `k`, inserting `init` first (at the end,
as Python dict insertion does) when `k` is absent. -/
def upsert {β : Type} (k : String) (init : β) (f : β → β) :
    List (String × β) → List (String × β)
  | [] => [(k, f init)]
  | (k', v) :: rest =>
    if k' = k then (k', f v) :: rest else (k', v) :: upsert k init f rest

/-- First value stored under `k`. -/
def alistFind {β : Type} : List (String × β) → String → Option β
  | [], _ => none
  | (k', v) :: rest, k => if k' = k then some v else alistFind rest k

/-! ## Type classifier (`email_orchestrator.classify_email_type`) -/

/-- Model of `classify_email_type` (lines 64–128 of `email_orchestrator.py`), as a
function of the classifier-call outcome: `none` is "the API call or
`json.loads` raised", `some v` is "the response parsed to `v`".  On a parsed
list, `"tagging"` is appended when absent; everything else degrades to
`["tagging"]`. -/
def classify_email_type (resp : Option JVal) : List JVal :=
  match resp with
  | none => [.str "tagging"]
  | some v =>
    match v with
    | .arr services =>
      if containsStr services "tagging" then services
      else services ++ [.str "tagging"]
    | _ => [.str "tagging"]

/-! ## Extractor adapters (`extract_financial_data_from_email`,
`extract_reminders_from_email`, `extract_meetings_from_email`) -/

/-- Outcome of one extractor's classifier call: either the call raised, or it
returned `content` whose `json.loads` outcome is `parsed` (`none` = the parse
raised). -/
inductive ExtractResp where
  | raise
  | text (content : String) (parsed : Option JVal)

/-- Enrich every element of a parsed array with extra keys; a non-object
element makes Python's item assignment raise, which the adapter's `try`
catches — modelled as `none`. -/
def enrichAll (f : List (String × JVal) → List (String × JVal)) :
    List JVal → Option (List JVal)
  | [] => some []
  | .obj fields :: rest => (enrichAll f rest).map (.obj (f fields) :: ·)
  | _ => none

/-- Shared parsing policy of the three adapters (finance lines 99–131,
reminders lines 93–124, meetings lines 107–132): strip, accept `""` and
`"[]"` as zero items, drop parse failures and non-list values, then apply the
adapter's own post-processing `enrich` — the finance and reminders stamping
loops (whose failure on a non-dict element is caught by the same `except`,
expressed by `enrich` returning `none`), or `some` for the meetings adapter,
which returns the parsed list unchanged. -/
def adaptResponse (enrich : List JVal → Option (List JVal))
    (resp : ExtractResp) : List JVal :=
  match resp with
  | .raise => []
  | .text content parsed =>
    if trimStr content = "" || trimStr content = "[]" then []
    else
      match parsed with
      | some (.arr items) => (enrich items).getD []
      | _ => []

/-- Model of `extract_financial_data_from_email` (lines 58–131 of
`email_finance.py`): the finance adapter stamps `source`, `source_subject`,
`source_sender` and `extracted_at` on every parsed transaction. -/
def extract_financial_data_from_email (subject sender now : String)
    (resp : ExtractResp) : List JVal :=
  adaptResponse
    (enrichAll fun fs =>
      dictSet (dictSet (dictSet (dictSet fs "source" (.str "email"))
        "source_subject" (.str subject)) "source_sender" (.str sender))
        "extracted_at" (.str now))
    resp

/-- Model of `extract_reminders_from_email` (lines 58–124 of `email_reminders.py`):
stamps `source`, `source_subject` and `extracted_at`. -/
def extract_reminders_from_email (subject now : String)
    (resp : ExtractResp) : List JVal :=
  adaptResponse
    (enrichAll fun fs =>
      dictSet (dictSet (dictSet fs "source" (.str "email"))
        "source_subject" (.str subject)) "extracted_at" (.str now))
    resp

/-- Model of `extract_meetings_from_email` (lines 70–132 of
`email_analytics.py`): no enrichment loop — the parsed list is returned as
is, even when its elements are not objects. -/
def extract_meetings_from_email (resp : ExtractResp) : List JVal :=
  adaptResponse some resp

/-! ## Financial summary (`email_finance.calculate_financial_summary`) -/

/-- A transaction item, i.e. the dict fields `calculate_financial_summary`
and `save_transactions_to_database` read; `none` means "key absent". -/
structure Txn where
  amount : Option ℚ := none
  currency : Option String := none
  type : Option String := none
  category : Option String := none
  recurring : Option Bool := none
  date : Option String := none
  description : Option String := none
  email_id : Option String := none
  source_sender : Option String := none
  source_subject : Option String := none
  body : Option String := none
deriving Repr, DecidableEq

/-- The skip guard of line 255: the item has both an `amount` and a
`currency` key. -/
def Txn.complete (t : Txn) : Bool :=
  t.amount.isSome && t.currency.isSome

/-- Python `transaction.get('type', '').lower()`. -/
def Txn.lowType (t : Txn) : String :=
  lowerStr (t.type.getD "")

/-- Python `transaction_type in ['income', 'refund', 'credit']`. -/
def isIncomeType (ty : String) : Bool :=
  ty ∈ ["income", "refund", "credit"]

/-- Python `transaction_type in ['expense', 'bill', 'charge', 'payment', 'debit']`. -/
def isExpenseType (ty : String) : Bool :=
  ty ∈ ["expense", "bill", "charge", "payment", "debit"]

/-- Per-category income/expense cell of `by_category`. -/
structure CatTotals where
  income : ℚ
  expenses : ℚ
deriving Repr, DecidableEq

/-- The `recurring` sub-object. -/
structure RecTotals where
  income : ℚ
  expenses : ℚ
deriving Repr, DecidableEq

/-- One per-currency group of `by_currency` (lines 265–275). -/
structure CurrencyData where
  total_income : ℚ
  total_expenses : ℚ
  by_category : List (String × CatTotals)
  recurring : RecTotals
deriving Repr, DecidableEq

/-- Fresh per-currency group (lines 266–275). -/
def emptyCurrencyData : CurrencyData :=
  { total_income := 0, total_expenses := 0, by_category := [], recurring := ⟨0, 0⟩ }

/-- Category initialisation of lines 278–282 (runs before the type check, so
even a transaction of unmapped type creates a zero category cell). -/
def ensureCat (cat : String) (d : CurrencyData) : CurrencyData :=
  { d with by_category := upsert cat ⟨0, 0⟩ id d.by_category }

/-- The categorize-and-sum step of lines 285–294. -/
def bucket (ty cat : String) (amt : ℚ) (isRec : Bool) (d : CurrencyData) :
    CurrencyData :=
  if isIncomeType ty then
    { d with
      total_income := d.total_income + amt
      by_category :=
        upsert cat ⟨0, 0⟩ (fun ct => { ct with income := ct.income + amt })
          d.by_category
      recurring :=
        if isRec then { d.recurring with income := d.recurring.income + amt }
        else d.recurring }
  else if isExpenseType ty then
    { d with
      total_expenses := d.total_expenses + amt
      by_category :=
        upsert cat ⟨0, 0⟩ (fun ct => { ct with expenses := ct.expenses + amt })
          d.by_category
      recurring :=
        if isRec then { d.recurring with expenses := d.recurring.expenses + amt }
        else d.recurring }
  else d

/-- One iteration of the grouping loop (lines 253–294). -/
def stepTxn (acc : List (String × CurrencyData)) (t : Txn) :
    List (String × CurrencyData) :=
  match t.amount, t.currency with
  | some amt, some cur =>
    let ty := t.lowType
    let cat := t.category.getD "uncategorized"
    let isRec := t.recurring.getD false
    upsert cur emptyCurrencyData (fun d => bucket ty cat amt isRec (ensureCat cat d)) acc
  | _, _ => acc

/-- The `by_currency` grouping of the whole transaction list. -/
def byCurrency (txns : List Txn) : List (String × CurrencyData) :=
  txns.foldl stepTxn []

/-- The selection key of line 299: `total_income + total_expenses`. -/
def curSum (d : CurrencyData) : ℚ :=
  d.total_income + d.total_expenses

/-- Python `max(keys, key=...)` over the groups in insertion order: keeps the
first group, replacing it only on a strictly larger key. -/
def pyMax : List (String × CurrencyData) → Option (String × CurrencyData)
  | [] => none
  | x :: xs => some (xs.foldl (fun m y => if curSum m.2 < curSum y.2 then y else m) x)

/-- One entry of the `other_currencies` side table (lines 313–320). -/
structure OtherCurrency where
  total_income : ℚ
  total_expenses : ℚ
  net_cash_flow : ℚ
deriving Repr, DecidableEq

/-- The summary dict; `other_currencies = none` models the key being absent. -/
structure Summary where
  total_income : ℚ
  total_expenses : ℚ
  net_cash_flow : ℚ
  currency : String
  period : String
  by_category : List (String × CatTotals)
  recurring : RecTotals
  other_currencies : Option (List (String × OtherCurrency)) := none
deriving Repr, DecidableEq

/-- The default summary of lines 237–248. -/
def defaultSummary : Summary :=
  { total_income := 0, total_expenses := 0, net_cash_flow := 0,
    currency := "USD", period := "Recent transactions",
    by_category := [], recurring := ⟨0, 0⟩, other_currencies := none }

/-- Model of `calculate_financial_summary` (lines 226–322 of `email_finance.py`). -/
def calculate_financial_summary (txns : List Txn) : Summary :=
  let bc := byCurrency txns
  match pyMax bc with
  | none => defaultSummary
  | some (pc, d) =>
    { total_income := d.total_income
      total_expenses := d.total_expenses
      net_cash_flow := d.total_income - d.total_expenses
      currency := pc
      period := "Recent transactions"
      by_category := d.by_category
      recurring := d.recurring
      other_currencies :=
        if 1 < bc.length then
          some (bc.filterMap fun p =>
            if p.1 = pc then none
            else some (p.1, ⟨p.2.total_income, p.2.total_expenses,
                             p.2.total_income - p.2.total_expenses⟩))
        else none }

/-- Specification-side sum: total income credited to currency `c` — the
amounts of the complete transactions in currency `c` whose lowercased type is
an income type. -/
def incomeSum (c : String) (txns : List Txn) : ℚ :=
  ((txns.filter fun t =>
      t.complete && t.currency.getD "USD" == c && isIncomeType t.lowType).map
    (fun t => t.amount.getD 0)).sum

/-- Specification-side sum of the expense bucket of currency `c`. -/
def expenseSum (c : String) (txns : List Txn) : ℚ :=
  ((txns.filter fun t =>
      t.complete && t.currency.getD "USD" == c && isExpenseType t.lowType).map
    (fun t => t.amount.getD 0)).sum

/-! ## Transaction persistence (`email_finance.save_transactions_to_database`) -/

/-- A row of the `email_transactions` insert (lines 397–409). -/
structure TxnRow where
  email_id : String
  date_sql : String
  description : String
  amount : ℚ
  currency : String
  type_sql : String
  category : String
  source : String
  raw_text : String
deriving Repr, DecidableEq

/-- The per-item normalisation of lines 352–409: `none` means the item is
skipped (its type maps to neither enum value); `now` stands for
`datetime.now().isoformat()`. -/
def rowOf (now : String) (t : Txn) : Option TxnRow :=
  let ty := t.lowType
  if isIncomeType ty || isExpenseType ty then
    some
      { email_id := t.email_id.getD ""
        date_sql :=
          match t.date with
          | some d =>
            if d = "" then now
            else if matchesDateRe d then d ++ "T00:00:00" else now
          | none => now
        description := t.description.getD ""
        amount := |t.amount.getD 0|
        currency := t.currency.getD "USD"
        type_sql := if isIncomeType ty then "income" else "expense"
        category := t.category.getD ""
        source := t.source_sender.getD ""
        raw_text :=
          "Subject: " ++ t.source_subject.getD "" ++ "\n" ++
            match t.body with
            | some b => b
            | none => "" }
  else none

/-- One iteration of a save loop: append the normalised row, or skip the
item when the normalisation rejects it. -/
def collectRows {α β : Type} (f : α → Option β) (rows : List β) (a : α) :
    List β :=
  match f a with
  | some r => rows ++ [r]
  | none => rows

/-- Model of `save_transactions_to_database` (lines 325–421 of `email_finance.py`):
`connOk` is the outcome of `get_postgres_connection()`, the returned list is
the sequence of rows handed to `cur.execute`. -/
def save_transactions_to_database (connOk : Bool) (now : String)
    (txns : List Txn) : Bool × List TxnRow :=
  if txns.isEmpty then (true, [])
  else if !connOk then (false, [])
  else
    (true, txns.foldl (collectRows (rowOf now)) [])

/-! ## Reminder persistence (`email_reminders.save_reminders_to_database`) -/

/-- A reminder item as the persistence code reads it (`none` = key absent; a
deadline that is present but `null` also reads back as `none` through
`reminder.get('deadline')`). -/
structure Reminder where
  email_id : Option String := none
  email_thread_id : Option String := none
  sender : Option String := none
  source_subject : Option String := none
  task : Option String := none
  context : Option String := none
  deadline : Option String := none
  priority : Option String := none
  extracted_at : Option String := none
deriving Repr, DecidableEq

/-- A row of the `reminders` insert (lines 259–272); `deadline_sql = none`
is SQL NULL. -/
structure RemRow where
  email_id : String
  email_thread_id : String
  sender : String
  subject : String
  task : String
  context : String
  deadline_sql : Option String
  priority : String
  extracted_at : String
  completed : Bool
deriving Repr, DecidableEq

/-- The deadline/context normalisation of lines 236–252: a present, truthy
deadline is kept only in strict `YYYY-MM-DD` form; otherwise NULL is stored
and the original text is appended to the context — but only when the context
is non-empty and does not already mention "due" or "deadline". -/
def remDeadlineContext (deadline : Option String) (context : String) :
    Option String × String :=
  match deadline with
  | none => (none, context)
  | some d =>
    if d = "" then (none, context)
    else if matchesDateRe d then (some d, context)
    else
      (none,
        if context ≠ "" && !hasSub (lowerStr context) "due" &&
            !hasSub (lowerStr context) "deadline" then
          context ++ " (Deadline: " ++ d ++ ")"
        else context)

/-- The per-reminder row of lines 224–272; `now` stands for
`datetime.now().isoformat()`. -/
def remRow (now : String) (r : Reminder) : RemRow :=
  let dc := remDeadlineContext r.deadline (r.context.getD "")
  { email_id := r.email_id.getD ""
    email_thread_id := r.email_thread_id.getD ""
    sender := r.sender.getD ""
    subject := r.source_subject.getD ""
    task := r.task.getD ""
    context := dc.2
    deadline_sql := dc.1
    priority := r.priority.getD "medium"
    extracted_at := r.extracted_at.getD now
    completed := false }

/-- Model of `save_reminders_to_database` (lines 197–284 of `email_reminders.py`). -/
def save_reminders_to_database (connOk : Bool) (now : String)
    (rs : List Reminder) : Bool × List RemRow :=
  if rs.isEmpty then (true, [])
  else if !connOk then (false, [])
  else (true, rs.foldl (fun rows r => rows ++ [remRow now r]) [])

/-! ## Todo ordering (`email_analytics.generate_email_analytics`) -/

/-- A todo item is a parsed dict. -/
abbrev Todo := List (String × JVal)

/-- Python `priority_values.get(·, 1)` of lines 235–236: the dict lookup hits only
the three string keys, everything else falls back to the default `1`. -/
def priorityRank (v : JVal) : Nat :=
  match v with
  | .str "high" => 0
  | .str "medium" => 1
  | .str "low" => 2
  | _ => 1

/-- Model of `todo_sort_key` (lines 234–238 of `email_analytics.py`): a missing
`priority` key defaults to `"medium"`, a missing `deadline` key to the
sentinel `"9999-12-31"`. -/
def todo_sort_key (t : Todo) : Nat × JVal :=
  (priorityRank (dictGet t "priority" (.str "medium")),
   dictGet t "deadline" (.str "9999-12-31"))

/-- The string Python's tuple comparison would look at in the deadline slot.
Python compares the second components only when the priority ranks tie, and
only string/string comparisons are defined there (anything else raises a
`TypeError`); `deadlineStr` totalises the order by reading every non-string
as `""`, which coincides with Python wherever Python's comparison is
defined. -/
def deadlineStr (v : JVal) : String :=
  match v with
  | .str s => s
  | _ => ""

/-- The sort order of `all_todos.sort(key=todo_sort_key)`: lexicographic on
`(priority rank, deadline)`. -/
def todoLE (t u : Todo) : Prop :=
  (todo_sort_key t).1 < (todo_sort_key u).1 ∨
    ((todo_sort_key t).1 = (todo_sort_key u).1 ∧
      deadlineStr (todo_sort_key t).2 ≤ deadlineStr (todo_sort_key u).2)

instance : DecidableRel todoLE := fun t u => by
  unfold todoLE; infer_instance

instance : IsTotal Todo todoLE where
  total t u := by
    unfold todoLE
    rcases Nat.lt_trichotomy (todo_sort_key t).1 (todo_sort_key u).1 with h | h | h
    · exact Or.inl (Or.inl h)
    · rcases le_total (deadlineStr (todo_sort_key t).2)
        (deadlineStr (todo_sort_key u).2) with h2 | h2
      · exact Or.inl (Or.inr ⟨h, h2⟩)
      · exact Or.inr (Or.inr ⟨h.symm, h2⟩)
    · exact Or.inr (Or.inl h)

instance : IsTrans Todo todoLE where
  trans a b c hab hbc := by
    unfold todoLE at *
    rcases hab with h1 | ⟨e1, s1⟩ <;> rcases hbc with h2 | ⟨e2, s2⟩
    · exact Or.inl (h1.trans h2)
    · exact Or.inl (e2 ▸ h1)
    · exact Or.inl (e1 ▸ h2)
    · exact Or.inr ⟨e1.trans e2, s1.trans s2⟩

/-- Model of `all_todos.sort(key=todo_sort_key)` (line 240 of `email_analytics.py`):
Python's sort is a stable sort by the key; modelled as a stable insertion
sort under `todoLE`. -/
def sortTodos (l : List Todo) : List Todo :=
  List.insertionSort todoLE l

/-! ## Orchestrator (`email_orchestrator.process_email`,
`process_recent_emails`) -/

/-- The fields of one Gmail message that `process_email` reads (header
extraction over a well-formed message is total, so it is pre-applied). -/
structure Msg where
  id : String
  threadId : String
  subject : String
  sender : String
  date : String
deriving Repr, DecidableEq

/-- Outcomes of the external calls one `process_email` run makes, supplied as
an environment.  A call that the Python code does not guard with its own
`try` is an `Except String` (an `error` value is an exception propagating to
`process_email`'s handler); calls that catch internally (`classify_email_type`,
the extractors, the save functions) appear through their total models. -/
structure PipeEnv where
  bodyResult : Except String String
  gmailService : Except String Unit
  classifyResp : Option JVal
  remindersResp : ExtractResp
  remindersSaveOk : Bool
  financeResp : ExtractResp
  financeSaveOk : Bool
  shouldReply : Except String Bool
  generateReply : Except String String
  draftResult : Except String String

/-- The sub-result stored under `results["reminders"]` / `results["finance"]`. -/
structure SvcRes where
  found : Nat
  items : List JVal
  saved_to_db : Bool

/-- The sub-result stored under `results["auto_reply"]`; optional fields model
keys that only some branches put in the dict (lines 256–272). -/
structure AutoReplyRes where
  should_reply : Bool
  reply_body : Option String := none
  draft_created : Option Bool := none
  draft_id : Option String := none
  draft_url : Option String := none
deriving Repr, DecidableEq

/-- The merged per-message result dict of lines 162–173. -/
structure ResultRec where
  email_id : String
  thread_id : String
  subject : String
  sender : String
  date : String
  services_used : List JVal
  reminders : Option SvcRes
  finance : Option SvcRes
  auto_reply : Option AutoReplyRes

/-- One `create_reply_draft` invocation (lines 244–251; the draft the Gmail
API is asked to store). -/
structure DraftCall where
  toAddr : String
  subject : String
  body : String
  threadId : String
  inReplyTo : String
deriving Repr, DecidableEq

/-- The per-message value `process_email` returns: the merged record, or the
error dict of lines 279–283. -/
inductive PEResult where
  | ok (r : ResultRec)
  | err (message : String) (email_id : String)

/-- Enrichment of extracted items inside `process_email` (lines 188–192 and
214–218): item assignment on a non-object raises, which only
`process_email`'s own handler catches. -/
def enrichListE (f : List (String × JVal) → List (String × JVal)) :
    List JVal → Except String (List JVal)
  | [] => .ok []
  | .obj fields :: rest => (enrichListE f rest).map (.obj (f fields) :: ·)
  | _ => .error "item assignment on non-dict"

/-- Metadata stamped on each reminder by lines 188–192. -/
def addRemMeta (msg : Msg) (fs : List (String × JVal)) :
    List (String × JVal) :=
  dictSet (dictSet (dictSet (dictSet fs "email_id" (.str msg.id))
    "email_thread_id" (.str msg.threadId)) "sender" (.str msg.sender))
    "date" (.str msg.date)

/-- Metadata stamped on each transaction by lines 214–218. -/
def addFinMeta (msg : Msg) (body : String) (fs : List (String × JVal)) :
    List (String × JVal) :=
  dictSet (dictSet (dictSet (dictSet fs "email_id" (.str msg.id))
    "email_thread_id" (.str msg.threadId)) "email_date" (.str msg.date))
    "body" (.str body)

/-- The reminders branch (lines 184–207). -/
def remindersBranch (msg : Msg) (env : PipeEnv) (save_to_db : Bool)
    (now : String) (services : List JVal) : Except String (Option SvcRes) :=
  if containsStr services "reminders" then
    match enrichListE (addRemMeta msg)
        (extract_reminders_from_email msg.subject now env.remindersResp) with
    | .error e => .error e
    | .ok reminders =>
      .ok (some
        { found := reminders.length
          items := reminders
          saved_to_db :=
            if save_to_db && !reminders.isEmpty then env.remindersSaveOk
            else false })
  else .ok none

/-- The finance branch (lines 210–233). -/
def financeBranch (msg : Msg) (env : PipeEnv) (save_to_db : Bool)
    (now body : String) (services : List JVal) :
    Except String (Option SvcRes) :=
  if containsStr services "finance" then
    match enrichListE (addFinMeta msg body)
        (extract_financial_data_from_email msg.subject msg.sender now
          env.financeResp) with
    | .error e => .error e
    | .ok transactions =>
      .ok (some
        { found := transactions.length
          items := transactions
          saved_to_db :=
            if save_to_db && !transactions.isEmpty then env.financeSaveOk
            else false })
  else .ok none

/-- The auto-reply branch (lines 236–272), returning the sub-result together
with the drafts actually handed to the Gmail API. -/
def autoReplyBranch (msg : Msg) (env : PipeEnv) (save_to_db : Bool)
    (services : List JVal) :
    Except String (Option AutoReplyRes × List DraftCall) :=
  if containsStr services "auto_reply" then
    match env.shouldReply with
    | .error e => .error e
    | .ok false => .ok (some { should_reply := false }, [])
    | .ok true =>
      match env.generateReply with
      | .error e => .error e
      | .ok replyBody =>
        if save_to_db then
          match env.draftResult with
          | .error e => .error e
          | .ok draftId =>
            .ok (some
              { should_reply := true
                reply_body := some replyBody
                draft_created := some true
                draft_id := some draftId
                draft_url :=
                  some ("https://mail.google.com/mail/u/0/#drafts/" ++ draftId) },
              [{ toAddr := msg.sender, subject := msg.subject, body := replyBody,
                 threadId := msg.threadId, inReplyTo := msg.id }])
        else
          .ok (some
            { should_reply := true
              reply_body := some replyBody
              draft_created := some false }, [])
  else .ok (none, [])

/-- The body of `process_email`'s `try` (lines 142–274): each `.error`
outcome is an exception reaching the handler. -/
def runPipeline (msg : Msg) (env : PipeEnv) (save_to_db : Bool)
    (now : String) : Except String (ResultRec × List DraftCall) :=
  match env.bodyResult with
  | .error e => .error e
  | .ok body =>
    let services := classify_email_type env.classifyResp
    match env.gmailService with
    | .error e => .error e
    | .ok _ =>
      match remindersBranch msg env save_to_db now services with
      | .error e => .error e
      | .ok remRes =>
        match financeBranch msg env save_to_db now body services with
        | .error e => .error e
        | .ok finRes =>
          match autoReplyBranch msg env save_to_db services with
          | .error e => .error e
          | .ok (arRes, drafts) =>
            .ok
              ({ email_id := msg.id
                 thread_id := msg.threadId
                 subject := msg.subject
                 sender := msg.sender
                 date := msg.date
                 services_used := services
                 reminders := remRes
                 finance := finRes
                 auto_reply := arRes }, drafts)

/-- Model of `process_email` (lines 131–283 of `email_orchestrator.py`): any exception
in the pipeline is converted to the error dict.  The draft creation is the
last fallible call, so a failing run has performed no draft side effect. -/
def process_email (msg : Msg) (env : PipeEnv) (save_to_db : Bool)
    (now : String) : PEResult × List DraftCall :=
  match runPipeline msg env save_to_db now with
  | .ok (r, drafts) => (.ok r, drafts)
  | .error e => (.err ("Error processing email: " ++ e) msg.id, [])

/-- The batch-level response of `process_recent_emails` (lines 286–336);
optional fields model keys absent from the error dict. -/
structure BatchResult where
  status : String
  message : String
  processed : Option Nat := none
  tagging_result : Option String := none
  results : Option (List PEResult) := none

/-- Model of `process_recent_emails` (lines 286–336 of `email_orchestrator.py`) given
that the Gmail list call returned `batch`; `tagResult` is the outcome of the
batch-wide `tag_emails()` sweep that runs after the per-message loop. -/
def process_recent_emails (batch : List (Msg × PipeEnv))
    (tagResult : Except String String) (save_to_db : Bool) (now : String) :
    BatchResult :=
  match tagResult with
  | .error e => { status := "error", message := "Error processing emails: " ++ e }
  | .ok tr =>
    { status := "success"
      message := "Processed " ++ toString batch.length ++ " emails"
      processed := some batch.length
      tagging_result := some tr
      results := some (batch.map fun p => (process_email p.1 p.2 save_to_db now).1) }

/-! ## Auxiliary definitions used to state the claims -/

/-- Total income of an optional currency group (absent group counts 0). -/
def tiOf (o : Option CurrencyData) : ℚ :=
  (o.map CurrencyData.total_income).getD 0

/-- Total expenses of an optional currency group. -/
def teOf (o : Option CurrencyData) : ℚ :=
  (o.map CurrencyData.total_expenses).getD 0

/-- What one transaction contributes to the income total of currency `c`. -/
def incomeContrib (c : String) (t : Txn) : ℚ :=
  if t.complete && t.currency.getD "USD" == c && isIncomeType t.lowType then
    t.amount.getD 0
  else 0

/-- What one transaction contributes to the expense total of currency `c`. -/
def expenseContrib (c : String) (t : Txn) : ℚ :=
  if t.complete && t.currency.getD "USD" == c && isExpenseType t.lowType then
    t.amount.getD 0
  else 0

/-- The failure modes of an extractor response covered by claim C3: call
raised, content empty after stripping, content the literal `[]` token,
`json.loads` raised, or the parse produced a non-list value. -/
def respFails : ExtractResp → Prop
  | .raise => True
  | .text content parsed =>
    trimStr content = "" ∨ trimStr content = "[]" ∨ parsed = none ∨
      ∀ xs, parsed ≠ some (.arr xs)

/-! ## Concrete inputs used by the witnesses -/

/-- Concrete input for claim C1: a 100 USD income item and a 50 EUR expense
item. -/
def c1txns : List Txn :=
  [{ amount := some 100, currency := some "USD", type := some "income" },
   { amount := some 50, currency := some "EUR", type := some "expense" }]

/-- Concrete input for claim C10: an item with an amount but no currency, and
an item with a currency but no amount. -/
def c10txns : List Txn :=
  [{ amount := some 5, type := some "income" },
   { currency := some "USD", type := some "expense" }]

/-- Concrete reminder for the claim C9 counterexample: an unparseable
deadline and an empty context. -/
def c9rem0 : Reminder :=
  { deadline := some "tomorrow", context := some "" }

/-- Concrete reminder for the claim C9 witness: an unparseable deadline and a
context free of "due"/"deadline". -/
def c9rem1 : Reminder :=
  { deadline := some "next Friday", context := some "call Bob" }

/-- Message used by the orchestrator witnesses. -/
def c4msg0 : Msg :=
  { id := "id0", threadId := "th0", subject := "sub0", sender := "snd0",
    date := "date0" }

/-- Second message used by the orchestrator witnesses. -/
def c4msg1 : Msg :=
  { id := "id1", threadId := "th1", subject := "sub1", sender := "snd1",
    date := "date1" }

/-- Environment whose body extraction raises. -/
def c4envErr : PipeEnv :=
  { bodyResult := .error "boom", gmailService := .ok (), classifyResp := none,
    remindersResp := .raise, remindersSaveOk := true, financeResp := .raise,
    financeSaveOk := true, shouldReply := .ok false, generateReply := .ok "",
    draftResult := .ok "d" }

/-- Environment in which every external call succeeds; the classifier selects
the auto-reply service and the reply decision is yes. -/
def c4envOk : PipeEnv :=
  { bodyResult := .ok "body1", gmailService := .ok (),
    classifyResp := some (.arr [.str "tagging", .str "auto_reply"]),
    remindersResp := .raise, remindersSaveOk := true, financeResp := .raise,
    financeSaveOk := true, shouldReply := .ok true,
    generateReply := .ok "reply text", draftResult := .ok "draft7" }

/-- Two-message batch: the first message's pipeline raises, the second's
succeeds. -/
def c4batch : List (Msg × PipeEnv) :=
  [(c4msg0, c4envErr), (c4msg1, c4envOk)]

/-! ## Helper lemmas -/

theorem alistFind_upsert {β : Type} (k k' : String) (init : β) (f : β → β)
    (l : List (String × β)) :
    alistFind (upsert k init f l) k' =
      if k' = k then some (f ((alistFind l k).getD init))
      else alistFind l k' := by
  induction l with
  | nil =>
    by_cases h : k' = k
    · subst h; simp [upsert, alistFind]
    · have h2 : ¬ k = k' := fun hh => h hh.symm
      simp [upsert, alistFind, h, h2]
  | cons hd tl ih =>
    rcases hd with ⟨k₀, v⟩
    by_cases h0 : k₀ = k
    · subst h0
      by_cases h1 : k' = k₀
      · subst h1; simp [upsert, alistFind]
      · have h2 : ¬ k₀ = k' := fun hh => h1 hh.symm
        simp [upsert, alistFind, h1, h2]
    · by_cases h1 : k₀ = k'
      · subst h1
        have h2 : ¬ k₀ = k := h0
        simp [upsert, alistFind, h0, h2]
      · simp [upsert, alistFind, h0, h1, ih]

theorem upsert_ne_nil {β : Type} (k : String) (init : β) (f : β → β)
    (l : List (String × β)) : upsert k init f l ≠ [] := by
  cases l with
  | nil => simp [upsert]
  | cons hd tl =>
    rcases hd with ⟨k₀, v⟩
    by_cases h : k₀ = k <;> simp [upsert, h]

theorem alistFind_mem {β : Type} {l : List (String × β)} {k : String} {v : β}
    (h : alistFind l k = some v) : (k, v) ∈ l := by
  induction l with
  | nil => simp [alistFind] at h
  | cons hd tl ih =>
    rcases hd with ⟨k₀, v₀⟩
    by_cases h0 : k₀ = k
    · subst h0
      simp [alistFind] at h
      simp [h]
    · simp [alistFind, h0] at h
      exact List.mem_cons_of_mem _ (ih h)

theorem income_not_expense {ty : String} (h : isIncomeType ty = true) :
    isExpenseType ty = false := by
  unfold isIncomeType at h
  have h' : ty = "income" ∨ ty = "refund" ∨ ty = "credit" := by simpa using h
  rcases h' with rfl | rfl | rfl <;> decide

theorem bucket_total_income (ty cat : String) (amt : ℚ) (r : Bool)
    (d : CurrencyData) :
    (bucket ty cat amt r (ensureCat cat d)).total_income =
      d.total_income + if isIncomeType ty then amt else 0 := by
  by_cases h1 : isIncomeType ty = true
  · simp [bucket, ensureCat, h1]
  · by_cases h2 : isExpenseType ty = true
    · simp [bucket, ensureCat, h1, h2]
    · simp [bucket, ensureCat, h1, h2]

theorem bucket_total_expenses (ty cat : String) (amt : ℚ) (r : Bool)
    (d : CurrencyData) :
    (bucket ty cat amt r (ensureCat cat d)).total_expenses =
      d.total_expenses + if isExpenseType ty then amt else 0 := by
  by_cases h1 : isIncomeType ty = true
  · simp [bucket, ensureCat, h1, income_not_expense h1]
  · by_cases h2 : isExpenseType ty = true
    · simp [bucket, ensureCat, h1, h2]
    · simp [bucket, ensureCat, h1, h2]

theorem tiOf_stepTxn (acc : List (String × CurrencyData)) (t : Txn)
    (c : String) :
    tiOf (alistFind (stepTxn acc t) c) =
      tiOf (alistFind acc c) + incomeContrib c t := by
  rcases ha : t.amount with _ | amt <;> rcases hc : t.currency with _ | cur
  · simp [stepTxn, ha, hc, incomeContrib, Txn.complete]
  · simp [stepTxn, ha, hc, incomeContrib, Txn.complete]
  · simp [stepTxn, ha, hc, incomeContrib, Txn.complete]
  · simp only [stepTxn, ha, hc]
    rw [alistFind_upsert]
    by_cases h : c = cur
    · subst h
      have hcomp : t.complete = true := by simp [Txn.complete, ha, hc]
      rcases hf : alistFind acc c with _ | d
      · simp [tiOf, bucket_total_income, incomeContrib, hcomp, ha, hc,
          emptyCurrencyData]
      · simp [tiOf, bucket_total_income, incomeContrib, hcomp, ha, hc]
    · have h2 : ¬ (t.currency.getD "USD" == c) = true := by
        simp [hc]; exact fun hh => h hh.symm
      simp [h, incomeContrib, h2]

theorem teOf_stepTxn (acc : List (String × CurrencyData)) (t : Txn)
    (c : String) :
    teOf (alistFind (stepTxn acc t) c) =
      teOf (alistFind acc c) + expenseContrib c t := by
  rcases ha : t.amount with _ | amt <;> rcases hc : t.currency with _ | cur
  · simp [stepTxn, ha, hc, expenseContrib, Txn.complete]
  · simp [stepTxn, ha, hc, expenseContrib, Txn.complete]
  · simp [stepTxn, ha, hc, expenseContrib, Txn.complete]
  · simp only [stepTxn, ha, hc]
    rw [alistFind_upsert]
    by_cases h : c = cur
    · subst h
      have hcomp : t.complete = true := by simp [Txn.complete, ha, hc]
      rcases hf : alistFind acc c with _ | d
      · simp [teOf, bucket_total_expenses, expenseContrib, hcomp, ha, hc,
          emptyCurrencyData]
      · simp [teOf, bucket_total_expenses, expenseContrib, hcomp, ha, hc]
    · have h2 : ¬ (t.currency.getD "USD" == c) = true := by
        simp [hc]; exact fun hh => h hh.symm
      simp [h, expenseContrib, h2]

theorem incomeSum_nil (c : String) : incomeSum c [] = 0 := rfl

theorem expenseSum_nil (c : String) : expenseSum c [] = 0 := rfl

theorem incomeSum_cons (c : String) (t : Txn) (ts : List Txn) :
    incomeSum c (t :: ts) = incomeContrib c t + incomeSum c ts := by
  unfold incomeSum incomeContrib
  by_cases h : (t.complete && t.currency.getD "USD" == c && isIncomeType t.lowType) = true
  · simp [List.filter_cons, h]
  · simp [List.filter_cons, h]

theorem expenseSum_cons (c : String) (t : Txn) (ts : List Txn) :
    expenseSum c (t :: ts) = expenseContrib c t + expenseSum c ts := by
  unfold expenseSum expenseContrib
  by_cases h : (t.complete && t.currency.getD "USD" == c && isExpenseType t.lowType) = true
  · simp [List.filter_cons, h]
  · simp [List.filter_cons, h]

theorem tiOf_foldl (txns : List Txn) :
    ∀ (acc : List (String × CurrencyData)) (c : String),
      tiOf (alistFind (txns.foldl stepTxn acc) c) =
        tiOf (alistFind acc c) + incomeSum c txns := by
  induction txns with
  | nil => intro acc c; simp [incomeSum_nil]
  | cons t ts ih =>
    intro acc c
    rw [List.foldl_cons, ih, tiOf_stepTxn, incomeSum_cons]
    ring

theorem teOf_foldl (txns : List Txn) :
    ∀ (acc : List (String × CurrencyData)) (c : String),
      teOf (alistFind (txns.foldl stepTxn acc) c) =
        teOf (alistFind acc c) + expenseSum c txns := by
  induction txns with
  | nil => intro acc c; simp [expenseSum_nil]
  | cons t ts ih =>
    intro acc c
    rw [List.foldl_cons, ih, teOf_stepTxn, expenseSum_cons]
    ring

theorem byCurrency_total_income {txns : List Txn} {c : String}
    {d : CurrencyData} (h : alistFind (byCurrency txns) c = some d) :
    d.total_income = incomeSum c txns := by
  have h2 := tiOf_foldl txns [] c
  rw [show txns.foldl stepTxn [] = byCurrency txns from rfl, h] at h2
  simpa [tiOf, alistFind] using h2

theorem byCurrency_total_expenses {txns : List Txn} {c : String}
    {d : CurrencyData} (h : alistFind (byCurrency txns) c = some d) :
    d.total_expenses = expenseSum c txns := by
  have h2 := teOf_foldl txns [] c
  rw [show txns.foldl stepTxn [] = byCurrency txns from rfl, h] at h2
  simpa [teOf, alistFind] using h2

theorem stepTxn_ne_nil_of_ne_nil {acc : List (String × CurrencyData)}
    (t : Txn) (h : acc ≠ []) : stepTxn acc t ≠ [] := by
  rcases ha : t.amount with _ | amt <;> rcases hc : t.currency with _ | cur <;>
    simp [stepTxn, ha, hc, h, upsert_ne_nil]

theorem stepTxn_ne_nil_of_complete (acc : List (String × CurrencyData))
    {t : Txn} (h : t.complete = true) : stepTxn acc t ≠ [] := by
  rcases ha : t.amount with _ | amt <;> rcases hc : t.currency with _ | cur <;>
    simp_all [stepTxn, ha, hc, Txn.complete, upsert_ne_nil]

theorem foldl_stepTxn_ne_nil (txns : List Txn) :
    ∀ acc : List (String × CurrencyData),
      (acc ≠ [] ∨ ∃ t ∈ txns, t.complete = true) →
      txns.foldl stepTxn acc ≠ [] := by
  induction txns with
  | nil =>
    intro acc h
    rcases h with h | ⟨t, ht, _⟩
    · simpa using h
    · simp at ht
  | cons t ts ih =>
    intro acc h
    rw [List.foldl_cons]
    apply ih
    rcases h with h | ⟨u, hu, hc⟩
    · exact Or.inl (stepTxn_ne_nil_of_ne_nil t h)
    · rcases List.mem_cons.mp hu with rfl | hu'
      · exact Or.inl (stepTxn_ne_nil_of_complete acc hc)
      · exact Or.inr ⟨u, hu', hc⟩

theorem foldl_pick_mem :
    ∀ (xs : List (String × CurrencyData)) (x : String × CurrencyData),
      xs.foldl (fun m y => if curSum m.2 < curSum y.2 then y else m) x = x ∨
      xs.foldl (fun m y => if curSum m.2 < curSum y.2 then y else m) x ∈ xs := by
  intro xs
  induction xs with
  | nil => intro x; exact Or.inl rfl
  | cons y ys ih =>
    intro x
    rw [List.foldl_cons]
    rcases ih (if curSum x.2 < curSum y.2 then y else x) with h | h
    · rw [h]
      by_cases hc : curSum x.2 < curSum y.2
      · simp [hc]
      · simp [hc]
    · exact Or.inr (List.mem_cons_of_mem _ h)

theorem foldl_pick_ge :
    ∀ (xs : List (String × CurrencyData)) (x : String × CurrencyData),
      curSum x.2 ≤
        curSum (xs.foldl (fun m y => if curSum m.2 < curSum y.2 then y else m) x).2 ∧
      ∀ y ∈ xs, curSum y.2 ≤
        curSum (xs.foldl (fun m y => if curSum m.2 < curSum y.2 then y else m) x).2 := by
  intro xs
  induction xs with
  | nil => intro x; exact ⟨le_refl _, by simp⟩
  | cons y ys ih =>
    intro x
    rw [List.foldl_cons]
    obtain ⟨hb, hall⟩ := ih (if curSum x.2 < curSum y.2 then y else x)
    have hx : curSum x.2 ≤ curSum (if curSum x.2 < curSum y.2 then y else x).2 := by
      by_cases hc : curSum x.2 < curSum y.2
      · simp [hc]; exact le_of_lt hc
      · simp [hc]
    have hy : curSum y.2 ≤ curSum (if curSum x.2 < curSum y.2 then y else x).2 := by
      by_cases hc : curSum x.2 < curSum y.2
      · simp [hc]
      · simp [hc]; exact le_of_not_lt hc
    refine ⟨hx.trans hb, ?_⟩
    intro z hz
    rcases List.mem_cons.mp hz with rfl | hz'
    · exact hy.trans hb
    · exact hall z hz'

theorem pyMax_spec {l : List (String × CurrencyData)} (h : l ≠ []) :
    ∃ m, pyMax l = some m ∧ m ∈ l ∧ ∀ x ∈ l, curSum x.2 ≤ curSum m.2 := by
  rcases l with _ | ⟨x, xs⟩
  · exact absurd rfl h
  · have hm : pyMax (x :: xs) =
        some (xs.foldl (fun m y => if curSum m.2 < curSum y.2 then y else m) x) := rfl
    refine ⟨xs.foldl (fun m y => if curSum m.2 < curSum y.2 then y else m) x,
      hm, ?_, ?_⟩
    · rcases foldl_pick_mem xs x with h2 | h2
      · rw [h2]; exact List.mem_cons_self x xs
      · exact List.mem_cons_of_mem _ h2
    · obtain ⟨hb, hall⟩ := foldl_pick_ge xs x
      intro z hz
      rcases List.mem_cons.mp hz with rfl | hz'
      · exact hb
      · exact hall z hz'

theorem alistFind_otherCurrencies {β : Type} (g : CurrencyData → β)
    (bc : List (String × CurrencyData)) (pc c : String) (h : c ≠ pc) :
    alistFind
      (bc.filterMap fun p => if p.1 = pc then none else some (p.1, g p.2)) c =
      (alistFind bc c).map g := by
  induction bc with
  | nil => simp [alistFind]
  | cons hd tl ih =>
    rcases hd with ⟨k, v⟩
    by_cases hk : k = pc
    · subst hk
      have : ¬ k = c := fun hh => h hh.symm
      simp [List.filterMap_cons, alistFind, this, ih]
    · by_cases hc : k = c
      · subst hc
        simp [List.filterMap_cons, hk, alistFind]
      · simp [List.filterMap_cons, hk, alistFind, hc, ih]

theorem one_lt_length_of_two_mem {α : Type} {l : List α} {a b : α}
    (ha : a ∈ l) (hb : b ∈ l) (hne : a ≠ b) : 1 < l.length := by
  rcases l with _ | ⟨x, l⟩
  · simp at ha
  · rcases l with _ | ⟨y, l⟩
    · simp at ha hb
      exact absurd (ha.trans hb.symm) hne
    · simp only [List.length_cons]
      omega

theorem stepTxn_incomplete {t : Txn} (h : ¬ t.complete = true)
    (acc : List (String × CurrencyData)) : stepTxn acc t = acc := by
  rcases ha : t.amount with _ | amt <;> rcases hc : t.currency with _ | cur <;>
    simp_all [stepTxn, Txn.complete, ha, hc]

theorem foldl_stepTxn_filter (txns : List Txn) :
    ∀ acc : List (String × CurrencyData),
      txns.foldl stepTxn acc =
        (txns.filter fun t => t.complete).foldl stepTxn acc := by
  induction txns with
  | nil => intro acc; rfl
  | cons t ts ih =>
    intro acc
    by_cases hc : t.complete = true
    · simp [List.filter_cons, hc, List.foldl_cons, ih]
    · simp [List.filter_cons, hc, List.foldl_cons, stepTxn_incomplete hc, ih]

/-! ## Claims -/

/-- Claim C1: for a transaction list with at least one item carrying both an
`amount` and a `currency` key, `calculate_financial_summary` groups the
complete items by currency; each currency's income total is the sum of
amounts whose lowered type is in `{income, refund, credit}` and its expense
total the sum over `{expense, bill, charge, payment, debit}` (any other type
contributes to neither); the primary currency is one whose
income-plus-expense sum is maximal among all currency groups; the top-level
fields repeat that currency's totals with `net_cash_flow = total_income -
total_expenses`, its `by_category` breakdown and its recurring subtotals; and
every other currency group appears in `other_currencies` with its own totals
and their difference. -/
theorem C1_financial_summary_primary_currency (txns : List Txn)
    (h : ∃ t ∈ txns, t.complete = true) :
    ∃ pc d, pyMax (byCurrency txns) = some (pc, d) ∧
      (pc, d) ∈ byCurrency txns ∧
      (∀ x ∈ byCurrency txns, curSum x.2 ≤ curSum d) ∧
      (∀ c d', alistFind (byCurrency txns) c = some d' →
        d'.total_income = incomeSum c txns ∧
        d'.total_expenses = expenseSum c txns) ∧
      (calculate_financial_summary txns).currency = pc ∧
      (calculate_financial_summary txns).total_income = d.total_income ∧
      (calculate_financial_summary txns).total_expenses = d.total_expenses ∧
      (calculate_financial_summary txns).net_cash_flow =
        d.total_income - d.total_expenses ∧
      (calculate_financial_summary txns).by_category = d.by_category ∧
      (calculate_financial_summary txns).recurring = d.recurring ∧
      (∀ c d', c ≠ pc → alistFind (byCurrency txns) c = some d' →
        alistFind ((calculate_financial_summary txns).other_currencies.getD []) c =
          some ⟨d'.total_income, d'.total_expenses,
                d'.total_income - d'.total_expenses⟩) := by
  have hne : byCurrency txns ≠ [] := foldl_stepTxn_ne_nil txns [] (Or.inr h)
  obtain ⟨m, hm, hmem, hge⟩ := pyMax_spec hne
  rcases m with ⟨pc, d⟩
  have hs : calculate_financial_summary txns =
      { total_income := d.total_income
        total_expenses := d.total_expenses
        net_cash_flow := d.total_income - d.total_expenses
        currency := pc
        period := "Recent transactions"
        by_category := d.by_category
        recurring := d.recurring
        other_currencies :=
          if 1 < (byCurrency txns).length then
            some ((byCurrency txns).filterMap fun p =>
              if p.1 = pc then none
              else some (p.1, ⟨p.2.total_income, p.2.total_expenses,
                               p.2.total_income - p.2.total_expenses⟩))
          else none } := by
    simp only [calculate_financial_summary, hm]
  refine ⟨pc, d, hm, hmem, hge, ?_, ?_, ?_, ?_, ?_, ?_, ?_, ?_⟩
  · intro c d' hfind
    exact ⟨byCurrency_total_income hfind, byCurrency_total_expenses hfind⟩
  · rw [hs]
  · rw [hs]
  · rw [hs]
  · rw [hs]
  · rw [hs]
  · rw [hs]
  · intro c d' hcp hfind
    have hmem' : (c, d') ∈ byCurrency txns := alistFind_mem hfind
    have hlen : 1 < (byCurrency txns).length :=
      one_lt_length_of_two_mem hmem' hmem
        (fun hh => hcp (congrArg Prod.fst hh))
    rw [hs]
    simp only [hlen, if_true]
    rw [Option.getD_some]
    rw [alistFind_otherCurrencies
      (fun v : CurrencyData =>
        ({ total_income := v.total_income, total_expenses := v.total_expenses,
           net_cash_flow := v.total_income - v.total_expenses } : OtherCurrency))
      (byCurrency txns) pc c hcp, hfind]
    rfl

/-- Witness for claim C1 at `c1txns`. -/
theorem C1_witness :
    (∃ t ∈ c1txns, t.complete = true) ∧
    (∃ pc d, pyMax (byCurrency c1txns) = some (pc, d) ∧
      (pc, d) ∈ byCurrency c1txns ∧
      (∀ x ∈ byCurrency c1txns, curSum x.2 ≤ curSum d) ∧
      (∀ c d', alistFind (byCurrency c1txns) c = some d' →
        d'.total_income = incomeSum c c1txns ∧
        d'.total_expenses = expenseSum c c1txns) ∧
      (calculate_financial_summary c1txns).currency = pc ∧
      (calculate_financial_summary c1txns).total_income = d.total_income ∧
      (calculate_financial_summary c1txns).total_expenses = d.total_expenses ∧
      (calculate_financial_summary c1txns).net_cash_flow =
        d.total_income - d.total_expenses ∧
      (calculate_financial_summary c1txns).by_category = d.by_category ∧
      (calculate_financial_summary c1txns).recurring = d.recurring ∧
      (∀ c d', c ≠ pc → alistFind (byCurrency c1txns) c = some d' →
        alistFind ((calculate_financial_summary c1txns).other_currencies.getD []) c =
          some ⟨d'.total_income, d'.total_expenses,
                d'.total_income - d'.total_expenses⟩)) :=
  ⟨by decide, C1_financial_summary_primary_currency c1txns (by decide)⟩

/-- Claim C5: items missing an `amount` key or a `currency` key contribute to
no part of the summary — the summary of any list equals the summary of its
complete items alone (the model is a total function, mirroring that the
skip happens before any field of such an item is read). -/
theorem C5_incomplete_items_excluded (txns : List Txn) :
    calculate_financial_summary txns =
      calculate_financial_summary (txns.filter fun t => t.complete) := by
  unfold calculate_financial_summary byCurrency
  rw [foldl_stepTxn_filter]

/-- Claim C10: when no item has both an `amount` and a `currency` key, the
result is exactly the default summary: zero totals, currency `"USD"`, period
`"Recent transactions"`, empty category map, zero recurring subtotals, and
no `other_currencies` key. -/
theorem C10_default_summary (txns : List Txn)
    (h : ∀ t ∈ txns, ¬ t.complete = true) :
    calculate_financial_summary txns = defaultSummary := by
  have hb : txns.foldl stepTxn [] = ([] : List (String × CurrencyData)) := by
    induction txns with
    | nil => rfl
    | cons t ts ih =>
      rw [List.foldl_cons, stepTxn_incomplete (h t (List.mem_cons_self t ts))]
      exact ih fun u hu => h u (List.mem_cons_of_mem t hu)
  unfold calculate_financial_summary byCurrency
  rw [hb]
  rfl

/-- Witness for claim C10 at `c10txns`. -/
theorem C10_witness :
    (∀ t ∈ c10txns, ¬ t.complete = true) ∧
    calculate_financial_summary c10txns = defaultSummary :=
  ⟨by decide, C10_default_summary c10txns (by decide)⟩

theorem containsStr_mem {xs : List JVal} {s : String}
    (h : containsStr xs s = true) : JVal.str s ∈ xs := by
  unfold containsStr at h
  rcases List.any_eq_true.mp h with ⟨v, hv, hp⟩
  rcases v with _ | b | n | t | ys | fs <;> simp at hp
  subst hp
  exact hv

/-- Claim C2 fails as stated: a classifier response that parses to the list
`[1]` is a list but not a list of strings, yet `classify_email_type` returns
`[1, "tagging"]`, not exactly `["tagging"]` (the code only checks
`isinstance(services, list)`). -/
theorem C2_counterexample :
    isStringList (JVal.arr [JVal.num 1]) = false ∧
    classify_email_type (some (JVal.arr [JVal.num 1])) =
      [JVal.num 1, JVal.str "tagging"] ∧
    classify_email_type (some (JVal.arr [JVal.num 1])) ≠ [JVal.str "tagging"] := by
  refine ⟨rfl, rfl, ?_⟩
  intro hh
  have hcalc : classify_email_type (some (JVal.arr [JVal.num 1])) =
      [JVal.num 1, JVal.str "tagging"] := rfl
  have h2 : ([JVal.num 1, JVal.str "tagging"] : List JVal) =
      [JVal.str "tagging"] := hcalc.symm.trans hh
  simp at h2

/-- Claim C2 (amended): `classify_email_type` always returns a list
containing `"tagging"`; when the classifier call raises, the response fails
to parse, or the parsed value is not a list, it returns exactly
`["tagging"]`; a response parsing to a list (even one with non-string
elements) is returned as is, with `"tagging"` appended when absent. -/
theorem C2_amended_tagging_always (resp : Option JVal) :
    JVal.str "tagging" ∈ classify_email_type resp ∧
    classify_email_type resp =
      (match resp with
       | some (.arr services) =>
         if containsStr services "tagging" then services
         else services ++ [JVal.str "tagging"]
       | _ => [JVal.str "tagging"]) := by
  constructor
  · rcases resp with _ | v
    · simp [classify_email_type]
    · rcases v with _ | b | n | t | xs | fs
      · simp [classify_email_type]
      · simp [classify_email_type]
      · simp [classify_email_type]
      · simp [classify_email_type]
      · by_cases hc : containsStr xs "tagging" = true
        · simp only [classify_email_type, hc, if_true]
          exact containsStr_mem hc
        · simp only [classify_email_type, hc, if_false, Bool.false_eq_true]
          exact List.mem_append_right xs (List.mem_singleton.mpr rfl)
      · simp [classify_email_type]
  · rcases resp with _ | v
    · rfl
    · rcases v with _ | b | n | t | xs | fs <;> rfl

/-- Claim C3: whenever an extractor's classifier call raises, or its content
is empty after stripping, or is the literal token `[]`, or fails to parse, or
parses to a non-list value, each of the three adapters (finance, reminders,
meetings) returns zero items; the adapters are total functions, so no case
raises to the caller. -/
theorem C3_adapters_fail_safe (subject sender now : String)
    (resp : ExtractResp) (h : respFails resp) :
    extract_financial_data_from_email subject sender now resp = [] ∧
    extract_reminders_from_email subject now resp = [] ∧
    extract_meetings_from_email resp = [] := by
  suffices hA : ∀ f, adaptResponse f resp = [] by
    exact ⟨hA _, hA _, hA _⟩
  intro f
  rcases resp with _ | ⟨content, parsed⟩
  · rfl
  · rcases h with h1 | h2 | h3 | h4
    · simp [adaptResponse, h1]
    · simp [adaptResponse, h2]
    · subst h3
      simp only [adaptResponse]
      split <;> rfl
    · rcases hp : parsed with _ | v
      · simp only [adaptResponse]
        split <;> rfl
      · rcases v with _ | b | n | t | xs | fs
        · simp only [adaptResponse]; split <;> rfl
        · simp only [adaptResponse]; split <;> rfl
        · simp only [adaptResponse]; split <;> rfl
        · simp only [adaptResponse]; split <;> rfl
        · exact absurd hp (h4 xs)
        · simp only [adaptResponse]; split <;> rfl

/-- Witness for claim C3 on a response whose parse fails. -/
theorem C3_witness :
    respFails (ExtractResp.text "not json" none) ∧
    (extract_financial_data_from_email "s" "from" "t"
        (ExtractResp.text "not json" none) = [] ∧
      extract_reminders_from_email "s" "t" (ExtractResp.text "not json" none) = [] ∧
      extract_meetings_from_email (ExtractResp.text "not json" none) = []) :=
  ⟨Or.inr (Or.inr (Or.inl rfl)),
   C3_adapters_fail_safe "s" "from" "t" (ExtractResp.text "not json" none)
     (Or.inr (Or.inr (Or.inl rfl)))⟩

/-- Claim C6: `generate_email_analytics` returns the todos sorted ascending
by the key `(priority rank, deadline)`, where rank maps high/medium/low to
0/1/2, a missing or unrecognized priority defaults to the medium rank 1, a
missing deadline is replaced by the sentinel `"9999-12-31"`, and in
particular the high-priority item of
`[{priority: low, deadline: "2099-01-01"}, {priority: high, deadline: null}]`
sorts first. -/
theorem C6_todo_ordering (todos : List Todo) :
    (sortTodos todos).Sorted todoLE ∧
    (sortTodos todos).Perm todos ∧
    priorityRank (.str "high") = 0 ∧
    priorityRank (.str "medium") = 1 ∧
    priorityRank (.str "low") = 2 ∧
    priorityRank (.str "urgent") = 1 ∧
    todo_sort_key [] = (1, .str "9999-12-31") ∧
    sortTodos [[("priority", .str "low"), ("deadline", .str "2099-01-01")],
               [("priority", .str "high"), ("deadline", .null)]] =
      [[("priority", .str "high"), ("deadline", .null)],
       [("priority", .str "low"), ("deadline", .str "2099-01-01")]] := by
  refine ⟨List.sorted_insertionSort todoLE todos,
    List.perm_insertionSort todoLE todos, rfl, rfl, rfl, rfl, rfl, ?_⟩
  have hc : ¬ todoLE [("priority", JVal.str "low"), ("deadline", JVal.str "2099-01-01")]
      [("priority", JVal.str "high"), ("deadline", JVal.null)] := by
    unfold todoLE
    simp [todo_sort_key, dictGet, priorityRank]
  simp [sortTodos, List.insertionSort, List.orderedInsert, hc]

theorem foldl_collect_filterMap {α β : Type} (f : α → Option β) (l : List α) :
    ∀ acc : List β,
      l.foldl (collectRows f) acc = acc ++ l.filterMap f := by
  induction l with
  | nil => intro acc; simp
  | cons a l ih =>
    intro acc
    rw [List.foldl_cons]
    rcases hf : f a with _ | r
    · simp [collectRows, hf, List.filterMap_cons, ih]
    · simp [collectRows, hf, List.filterMap_cons, ih]

/-- Claim C7: `save_transactions_to_database` returns success with no rows
for the empty list (before even touching the connection); with a working
connection it always reports success, the rows it inserts are exactly the
items whose lowercased type maps to one of the two enum values, and an item
is skipped precisely when its type is in neither set. -/
theorem C7_save_transactions_skip_unknown (now : String) (txns : List Txn) :
    (∀ connOk, save_transactions_to_database connOk now [] = (true, [])) ∧
    (save_transactions_to_database true now txns).1 = true ∧
    (save_transactions_to_database true now txns).2 = txns.filterMap (rowOf now) ∧
    (∀ t : Txn, rowOf now t = none ↔
      (¬ isIncomeType t.lowType = true ∧ ¬ isExpenseType t.lowType = true)) := by
  refine ⟨fun connOk => rfl, ?_, ?_, ?_⟩
  · unfold save_transactions_to_database
    by_cases he : txns.isEmpty <;> simp [he]
  · unfold save_transactions_to_database
    by_cases he : txns.isEmpty
    · rw [List.isEmpty_iff] at he
      subst he
      simp
    · have hfm := foldl_collect_filterMap (rowOf now) txns []
      rw [List.nil_append] at hfm
      simp only [he, Bool.not_true, Bool.false_eq_true, if_false]
      exact hfm
  · intro t
    unfold rowOf
    by_cases h1 : isIncomeType t.lowType = true
    · simp [h1]
    · by_cases h2 : isExpenseType t.lowType = true
      · simp [h1, h2]
      · simp [h1, h2]

/-- Claim C9 fails as stated: a reminder whose deadline `"tomorrow"` is not
`YYYY-MM-DD` does get NULL in the deadline column, but with an empty context
nothing is appended — the unparsed deadline text is dropped (the append is
guarded by the context being non-empty and not already mentioning
"due"/"deadline"). -/
theorem C9_counterexample :
    (remRow "2025-01-01T00:00:00" c9rem0).deadline_sql = none ∧
    (remRow "2025-01-01T00:00:00" c9rem0).context = "" ∧
    hasSub (remRow "2025-01-01T00:00:00" c9rem0).context "tomorrow" = false := by
  refine ⟨rfl, rfl, rfl⟩

/-- Claim C9 (amended): for a present, non-empty deadline outside strict
`YYYY-MM-DD` form, `save_reminders_to_database` stores NULL in the deadline
column; the unparsed deadline text is appended to the context only when the
existing context is non-empty and does not already contain "due" or
"deadline" (case-insensitively), otherwise the context is left unchanged;
and with a working connection the stored rows are exactly the normalised
reminders. -/
theorem C9_amended_deadline_null (now : String) (r : Reminder) (d : String)
    (h1 : r.deadline = some d) (h2 : d ≠ "") (h3 : matchesDateRe d = false) :
    (remRow now r).deadline_sql = none ∧
    (remRow now r).context =
      (if r.context.getD "" ≠ "" &&
          !hasSub (lowerStr (r.context.getD "")) "due" &&
          !hasSub (lowerStr (r.context.getD "")) "deadline" then
        r.context.getD "" ++ " (Deadline: " ++ d ++ ")"
      else r.context.getD "") ∧
    (save_reminders_to_database true now [r]).2 = [remRow now r] := by
  refine ⟨?_, ?_, ?_⟩
  · simp [remRow, remDeadlineContext, h1, h2, h3]
  · simp [remRow, remDeadlineContext, h1, h2, h3]
  · simp [save_reminders_to_database]

/-- Witness for the amended claim C9 at `c9rem1`. -/
theorem C9_witness :
    (c9rem1.deadline = some "next Friday" ∧ "next Friday" ≠ "" ∧
      matchesDateRe "next Friday" = false) ∧
    ((remRow "T" c9rem1).deadline_sql = none ∧
      (remRow "T" c9rem1).context =
        (if c9rem1.context.getD "" ≠ "" &&
            !hasSub (lowerStr (c9rem1.context.getD "")) "due" &&
            !hasSub (lowerStr (c9rem1.context.getD "")) "deadline" then
          c9rem1.context.getD "" ++ " (Deadline: " ++ "next Friday" ++ ")"
        else c9rem1.context.getD "") ∧
      (save_reminders_to_database true "T" [c9rem1]).2 = [remRow "T" c9rem1]) :=
  ⟨⟨rfl, by decide, by decide⟩,
   C9_amended_deadline_null "T" c9rem1 "next Friday" rfl (by decide) (by decide)⟩

/-- Claim C4: if the per-message pipeline raises, `process_email` returns the
error-shaped result `{status: error, message, email_id}` (and has created no
draft), while `process_recent_emails` still returns a batch-level success
whose results list has one entry per message — the failing message
contributing its error entry and every message contributing its own
`process_email` outcome. -/
theorem C4_per_message_error_isolated (batch : List (Msg × PipeEnv))
    (tr now : String) (save_to_db : Bool) (i : Nat) (msg : Msg)
    (env : PipeEnv) (e : String)
    (hi : batch.get? i = some (msg, env))
    (herr : runPipeline msg env save_to_db now = .error e) :
    process_email msg env save_to_db now =
      (.err ("Error processing email: " ++ e) msg.id, []) ∧
    (process_recent_emails batch (.ok tr) save_to_db now).status = "success" ∧
    ∃ rs, (process_recent_emails batch (.ok tr) save_to_db now).results = some rs ∧
      rs.length = batch.length ∧
      rs.get? i = some (.err ("Error processing email: " ++ e) msg.id) ∧
      ∀ (j : Nat) (p : Msg × PipeEnv), batch.get? j = some p →
        rs.get? j = some (process_email p.1 p.2 save_to_db now).1 := by
  have hpe : process_email msg env save_to_db now =
      (.err ("Error processing email: " ++ e) msg.id, []) := by
    unfold process_email
    rw [herr]
  refine ⟨hpe, rfl, ?_⟩
  have hres : (process_recent_emails batch (.ok tr) save_to_db now).results =
      some (batch.map (fun p => (process_email p.1 p.2 save_to_db now).1)) := rfl
  refine ⟨batch.map (fun p => (process_email p.1 p.2 save_to_db now).1), hres,
    by simp, ?_, ?_⟩
  · rw [List.get?_map, hi]
    simp [hpe]
  · intro j p hj
    rw [List.get?_map, hj]
    rfl

/-- Witness for claim C4 on the two-message batch `c4batch`, whose first
message's body extraction raises. -/
theorem C4_witness :
    c4batch.get? 0 = some (c4msg0, c4envErr) ∧
    runPipeline c4msg0 c4envErr true "T" = .error "boom" ∧
    (process_email c4msg0 c4envErr true "T" =
        (.err ("Error processing email: " ++ "boom") c4msg0.id, []) ∧
      (process_recent_emails c4batch (.ok "tagged") true "T").status = "success" ∧
      ∃ rs, (process_recent_emails c4batch (.ok "tagged") true "T").results = some rs ∧
        rs.length = c4batch.length ∧
        rs.get? 0 = some (.err ("Error processing email: " ++ "boom") c4msg0.id) ∧
        ∀ (j : Nat) (p : Msg × PipeEnv), c4batch.get? j = some p →
          rs.get? j = some (process_email p.1 p.2 true "T").1) :=
  ⟨rfl, rfl,
   C4_per_message_error_isolated c4batch "tagged" "T" true 0 c4msg0 c4envErr
     "boom" rfl rfl⟩

theorem autoReplyBranch_no_save_drafts (msg : Msg) (env : PipeEnv)
    (services : List JVal) (a : Option AutoReplyRes) (ds : List DraftCall)
    (h : autoReplyBranch msg env false services = .ok (a, ds)) : ds = [] := by
  unfold autoReplyBranch at h
  repeat' split at h
  all_goals simp_all

theorem drafts_nil_of_no_save (msg : Msg) (env : PipeEnv) (now : String) :
    (process_email msg env false now).2 = [] := by
  unfold process_email runPipeline
  rcases hb : env.bodyResult with e | b <;> simp only [hb] <;> try rfl
  rcases hg : env.gmailService with e | u <;> simp only [hg] <;> try rfl
  rcases hrB : remindersBranch msg env false now
      (classify_email_type env.classifyResp) with e | ro <;>
    simp only [hrB] <;> try rfl
  rcases hfB : financeBranch msg env false now b
      (classify_email_type env.classifyResp) with e | fo <;>
    simp only [hfB] <;> try rfl
  rcases haB : autoReplyBranch msg env false
      (classify_email_type env.classifyResp) with e | pr <;>
    simp only [haB] <;> try rfl
  rcases pr with ⟨a, ds⟩
  exact autoReplyBranch_no_save_drafts msg env
    (classify_email_type env.classifyResp) a ds haB

/-- Claim C8: in a run whose external calls all succeed, `process_email`
invokes the draft side effect exactly when `"auto_reply"` is among the
classified services, the reply decision is yes, and `save_to_db` is true;
with `save_to_db = false` no draft is ever created for any message, and the
result instead carries the generated reply body with `draft_created` false. -/
theorem C8_draft_gating (msg : Msg) (env : PipeEnv) (save_to_db : Bool)
    (now b : String) (s : Bool) (g dId : String) (rems fins : List JVal)
    (hb : env.bodyResult = .ok b)
    (hg : env.gmailService = .ok ())
    (hrem : enrichListE (addRemMeta msg)
        (extract_reminders_from_email msg.subject now env.remindersResp) =
        .ok rems)
    (hfin : enrichListE (addFinMeta msg b)
        (extract_financial_data_from_email msg.subject msg.sender now
          env.financeResp) = .ok fins)
    (hs : env.shouldReply = .ok s)
    (hgen : env.generateReply = .ok g)
    (hd : env.draftResult = .ok dId) :
    ((process_email msg env save_to_db now).2 ≠ [] ↔
      (containsStr (classify_email_type env.classifyResp) "auto_reply" = true ∧
        s = true ∧ save_to_db = true)) ∧
    (∀ (msg' : Msg) (env' : PipeEnv),
      (process_email msg' env' false now).2 = []) ∧
    (save_to_db = false →
      containsStr (classify_email_type env.classifyResp) "auto_reply" = true →
      s = true →
      ∃ r, (process_email msg env save_to_db now).1 = .ok r ∧
        r.auto_reply = some { should_reply := true, reply_body := some g,
                              draft_created := some false }) := by
  obtain ⟨ro, hro⟩ : ∃ o, remindersBranch msg env save_to_db now
      (classify_email_type env.classifyResp) = .ok o := by
    unfold remindersBranch
    by_cases h : containsStr (classify_email_type env.classifyResp)
        "reminders" = true
    · simp [h, hrem]
    · simp [h]
  obtain ⟨fo, hfo⟩ : ∃ o, financeBranch msg env save_to_db now b
      (classify_email_type env.classifyResp) = .ok o := by
    unfold financeBranch
    by_cases h : containsStr (classify_email_type env.classifyResp)
        "finance" = true
    · simp [h, hfin]
    · simp [h]
  have harB : autoReplyBranch msg env save_to_db
      (classify_email_type env.classifyResp) =
      .ok ((if containsStr (classify_email_type env.classifyResp)
              "auto_reply" = true then
              (if s then
                (if save_to_db then
                  some { should_reply := true, reply_body := some g,
                         draft_created := some true, draft_id := some dId,
                         draft_url := some
                           ("https://mail.google.com/mail/u/0/#drafts/" ++ dId) }
                else
                  some { should_reply := true, reply_body := some g,
                         draft_created := some false })
              else some { should_reply := false })
            else none),
           (if containsStr (classify_email_type env.classifyResp)
                "auto_reply" && s && save_to_db then
              [{ toAddr := msg.sender, subject := msg.subject, body := g,
                 threadId := msg.threadId, inReplyTo := msg.id }]
            else [])) := by
    unfold autoReplyBranch
    by_cases har : containsStr (classify_email_type env.classifyResp)
        "auto_reply" = true
    · cases s
      · simp [har, hs]
      · cases save_to_db
        · simp [har, hs, hgen]
        · simp [har, hs, hgen, hd]
    · simp [har, Bool.not_eq_true _ ▸ har]
  have hpe : process_email msg env save_to_db now =
      (.ok { email_id := msg.id, thread_id := msg.threadId,
             subject := msg.subject, sender := msg.sender, date := msg.date,
             services_used := classify_email_type env.classifyResp,
             reminders := ro, finance := fo,
             auto_reply :=
               (if containsStr (classify_email_type env.classifyResp)
                   "auto_reply" = true then
                   (if s then
                     (if save_to_db then
                       some { should_reply := true, reply_body := some g,
                              draft_created := some true, draft_id := some dId,
                              draft_url := some
                                ("https://mail.google.com/mail/u/0/#drafts/" ++ dId) }
                     else
                       some { should_reply := true, reply_body := some g,
                              draft_created := some false })
                   else some { should_reply := false })
                 else none) },
       (if containsStr (classify_email_type env.classifyResp)
            "auto_reply" && s && save_to_db then
          [{ toAddr := msg.sender, subject := msg.subject, body := g,
             threadId := msg.threadId, inReplyTo := msg.id }]
        else [])) := by
    unfold process_email runPipeline
    simp only [hb, hg, hro, hfo, harB]
  refine ⟨?_, fun msg' env' => drafts_nil_of_no_save msg' env' now, ?_⟩
  · rw [hpe]
    cases hcr : containsStr (classify_email_type env.classifyResp)
        "auto_reply" <;> cases s <;> cases save_to_db <;> simp
  · intro hsave har hst
    subst hsave
    subst hst
    refine ⟨_, by rw [hpe], ?_⟩
    simp [har]

/-- Witness for claim C8: message `c4msg1` in environment `c4envOk`, where
the classifier selected auto-reply and the reply decision is yes. -/
theorem C8_witness :
    (c4envOk.bodyResult = .ok "body1" ∧
      c4envOk.gmailService = .ok () ∧
      enrichListE (addRemMeta c4msg1)
        (extract_reminders_from_email c4msg1.subject "T" c4envOk.remindersResp) =
        .ok [] ∧
      enrichListE (addFinMeta c4msg1 "body1")
        (extract_financial_data_from_email c4msg1.subject c4msg1.sender "T"
          c4envOk.financeResp) = .ok [] ∧
      c4envOk.shouldReply = .ok true ∧
      c4envOk.generateReply = .ok "reply text" ∧
      c4envOk.draftResult = .ok "draft7") ∧
    (((process_email c4msg1 c4envOk true "T").2 ≠ [] ↔
      (containsStr (classify_email_type c4envOk.classifyResp) "auto_reply" = true ∧
        true = true ∧ true = true)) ∧
    (∀ (msg' : Msg) (env' : PipeEnv),
      (process_email msg' env' false "T").2 = []) ∧
    (true = false →
      containsStr (classify_email_type c4envOk.classifyResp) "auto_reply" = true →
      true = true →
      ∃ r, (process_email c4msg1 c4envOk true "T").1 = .ok r ∧
        r.auto_reply = some { should_reply := true, reply_body := some "reply text",
                              draft_created := some false })) :=
  ⟨⟨rfl, rfl, rfl, rfl, rfl, rfl, rfl⟩,
   C8_draft_gating c4msg1 c4envOk true "T" "body1" true "reply text" "draft7"
     [] [] rfl rfl rfl rfl rfl rfl rfl⟩
